import Mathlib

/-!
Shallow embedding of the contact-form flow of this repository:
  * `src/pages/api/send-email.ts` — the mail dispatch endpoint (namespace `SendEmail`),
  * `src/components/Contact.tsx` — the contact form widget (namespace `Contact`).

JavaScript runtime behaviour relevant to the claims is made explicit:
truthiness of values, the module-level provider-client initialisation,
the email-shape regex used by the widget, and the `TypeError` raised by
calling `.replace` on a non-string value.
-/

namespace SendEmail

/-- A JavaScript value as it can appear in a parsed JSON request body
(restricted to the shapes the claims exercise). -/
inductive JSValue where
  | str : String → JSValue
  | num : Int → JSValue
  | boolean : Bool → JSValue
  | null : JSValue
  | undefined : JSValue
deriving Repr, DecidableEq

/-- JavaScript truthiness of a `JSValue` (`!v` in the source negates this). -/
def JSValue.truthy : JSValue → Bool
  | .str s => s ≠ ""
  | .num n => n ≠ 0
  | .boolean b => b
  | .null => false
  | .undefined => false

/-- Template-literal coercion of a JavaScript value to a string (used by
the `$\x7bemail\x7d` interpolation in the HTML body). -/
def JSValue.toTemplateString : JSValue → String
  | .str s => s
  | .num n => toString n
  | .boolean b => if b then "true" else "false"
  | .null => "null"
  | .undefined => "undefined"

/-- The environment variables read at module load:
`RESEND_API_KEY`, `CONTACT_FORM_EMAIL`, `NEXT_PUBLIC_API_URL`, `NODE_ENV`.
`none` models an unset variable. -/
structure Env where
  RESEND_API_KEY : Option String
  CONTACT_FORM_EMAIL : Option String
  NEXT_PUBLIC_API_URL : Option String
  NODE_ENV : String
deriving Repr, DecidableEq

/-- The constant `IS_DEVELOPMENT = process.env.NODE_ENV === "development"`. -/
def IS_DEVELOPMENT (env : Env) : Bool :=
  env.NODE_ENV = "development"

/-- The constant `API_URL = process.env.NEXT_PUBLIC_API_URL || "http://localhost:3000"`
(`||` falls through on the falsy values `undefined` and `""`). -/
def API_URL (env : Env) : String :=
  match env.NEXT_PUBLIC_API_URL with
  | some s => if s = "" then "http://localhost:3000" else s
  | none => "http://localhost:3000"

/-- Truthiness of an optional environment string (`!CONTACT_FORM_EMAIL`
and `!RESEND_API_KEY` in the source negate this). -/
def optStringTruthy : Option String → Bool
  | some s => s ≠ ""
  | none => false

/-- The JavaScript `s.startsWith(p)`, computed over the character lists
(kept structurally recursive so concrete instances evaluate). -/
def strStartsWith (s p : String) : Bool :=
  p.toList.isPrefixOf s.toList

/-- The module-level `try` block that builds the `resend` client: `resend`
is non-null afterwards iff the API key is set, non-empty, and starts with
`re_` (otherwise the block throws and `resend` stays `null`). -/
def resendInitialized (env : Env) : Bool :=
  match env.RESEND_API_KEY with
  | some k => k ≠ "" && strStartsWith k "re_"
  | none => false

/-- The structured provider error `\x7b name, message \x7d`. -/
structure ErrorResponse where
  name : String
  message : String
deriving Repr, DecidableEq

/-- The `ResendEmailResponse`: `data : \x7b id \x7d | null` (we carry the id) and
`error : ErrorResponse | null`. -/
structure ResendEmailResponse where
  data : Option String
  error : Option ErrorResponse
deriving Repr, DecidableEq

/-- The behaviour of `await resend.emails.send(emailData)` for one request:
either it returns a `ResendEmailResponse` or it throws with a message. -/
inductive ProviderBehavior where
  | returns : ResendEmailResponse → ProviderBehavior
  | throws : String → ProviderBehavior
deriving Repr, DecidableEq

/-- The parsed JSON request body, destructured as
`const \x7b email, message \x7d = req.body`. -/
structure RequestBody where
  email : JSValue
  message : JSValue
deriving Repr, DecidableEq

/-- The parts of `NextApiRequest` the handler reads: `req.method`,
`req.headers.origin`, `req.body`. -/
structure Request where
  method : String
  origin : Option String
  body : RequestBody
deriving Repr, DecidableEq

/-- A JSON value appearing in a response body (only strings and booleans occur). -/
inductive JVal where
  | s : String → JVal
  | b : Bool → JVal
deriving Repr, DecidableEq

/-- The observable response: status code, headers set via `res.setHeader`,
and the JSON body (`none` models `res.end()` with no body). -/
structure Response where
  status : Nat
  headers : List (String × String)
  body : Option (List (String × JVal))
deriving Repr, DecidableEq

/-- Body `\x7b message: "Method not allowed" \x7d`. -/
def notAllowedBody : List (String × JVal) :=
  [("message", .s "Method not allowed")]

/-- Body `\x7b success: false, message: "Email service not initialized", error: "Internal server error" \x7d`. -/
def notInitializedBody : List (String × JVal) :=
  [("success", .b false), ("message", .s "Email service not initialized"),
   ("error", .s "Internal server error")]

/-- Body `\x7b message: "Email and message are required" \x7d`. -/
def fieldsRequiredBody : List (String × JVal) :=
  [("message", .s "Email and message are required")]

/-- Body `\x7b message: "Email service configuration error", details: "Recipient email is missing" \x7d`. -/
def configErrorBody : List (String × JVal) :=
  [("message", .s "Email service configuration error"),
   ("details", .s "Recipient email is missing")]

/-- Body `\x7b success: false, message: "Failed to send email", error: err \x7d` —
used both for a provider-reported error and for the outer catch. -/
def sendFailedBody (err : String) : List (String × JVal) :=
  [("success", .b false), ("message", .s "Failed to send email"), ("error", .s err)]

/-- Body `\x7b success: true, message: "Email sent successfully", id: result.data?.id \x7d`;
when `result.data` is null the optional chain yields `undefined` and
`JSON.stringify` drops the `id` key. -/
def sentBody (id : Option String) : List (String × JVal) :=
  [("success", .b true), ("message", .s "Email sent successfully")] ++
    (match id with | some i => [("id", JVal.s i)] | none => [])

/-- The constant `allowedOrigins = [API_URL, "http://localhost:3000"]`. -/
def allowedOrigins (env : Env) : List String :=
  [API_URL env, "http://localhost:3000"]

/-- The CORS block: when `IS_DEVELOPMENT || allowedOrigins.includes(origin)`
the three headers are set (echoing the origin), otherwise none are. -/
def corsHeaders (env : Env) (origin : String) : List (String × String) :=
  if IS_DEVELOPMENT env || (allowedOrigins env).contains origin then
    [("Access-Control-Allow-Origin", origin),
     ("Access-Control-Allow-Methods", "POST, OPTIONS"),
     ("Access-Control-Allow-Headers", "Content-Type")]
  else []

/-- Replaces every newline character with the four characters `<br>`,
the effect of the global single-character pattern `/\n/g`. -/
def replaceNewlinesBr : List Char → List Char
  | [] => []
  | c :: rest =>
    if c = '\n' then '<' :: 'b' :: 'r' :: '>' :: replaceNewlinesBr rest
    else c :: replaceNewlinesBr rest

/-- The expression `message.replace(/\n/g, "<br>")`: on a string it replaces every newline
with `<br>`; on any non-string value the property access produces a value
that is not callable and a `TypeError` is thrown. -/
def messageReplaceNewlines : JSValue → Except String String
  | .str s => .ok (String.mk (replaceNewlinesBr s.toList))
  | _ => .error "message.replace is not a function"

/-- The HTML template literal of `emailData.html`, with the three
`IS_DEVELOPMENT` conditionals and the `$\x7bemail\x7d` interpolation; the
precomputed replacement of newlines by break tags is passed in. -/
def emailHtml (env : Env) (email : JSValue) (messageHtml : String) : String :=
  "\n        <!DOCTYPE html>\n        <html>\n          <head>\n            <style>\n" ++
  "              body \x7b font-family: Arial, sans-serif; line-height: 1.6; color: #333; \x7d\n" ++
  "              .container \x7b max-width: 600px; margin: 0 auto; padding: 20px; \x7d\n" ++
  "              .header \x7b background-color: #1f2937; color: white; padding: 20px; border-radius: 8px; display: flex; align-items: center; gap: 15px; \x7d\n" ++
  "              .header svg \x7b width: 32px; height: 32px; \x7d\n" ++
  "              .content \x7b background-color: #f9fafb; padding: 20px; border-radius: 8px; margin-top: 20px; \x7d\n" ++
  "              .footer \x7b text-align: center; margin-top: 20px; color: #6b7280; font-size: 0.875rem; \x7d\n" ++
  "              " ++
  (if IS_DEVELOPMENT env then
    ".dev-banner \x7b background: #fde68a; color: #92400e; padding: 10px; text-align: center; margin-bottom: 20px; \x7d"
   else "") ++
  "\n            </style>\n          </head>\n          <body>\n            <div class=\"container\">\n" ++
  "              " ++
  (if IS_DEVELOPMENT env then
    "<div class=\"dev-banner\">⚠️ This is a test email from development environment</div>"
   else "") ++
  "\n              <div class=\"header\">\n" ++
  "                <svg xmlns=\"http://www.w3.org/2000/svg\" viewBox=\"0 0 24 24\" fill=\"none\" stroke=\"currentColor\" stroke-width=\"2\" stroke-linecap=\"round\" stroke-linejoin=\"round\" style=\"color: #06b6d4;\">\n" ++
  "                  <path d=\"M4 4h16c1.1 0 2 .9 2 2v12c0 1.1-.9 2-2 2H4c-1.1 0-2-.9-2-2V6c0-1.1.9-2 2-2z\"></path>\n" ++
  "                  <polyline points=\"22,6 12,13 2,6\"></polyline>\n" ++
  "                </svg>\n" ++
  "                <h1 style=\"margin: 0;\">New Message from Your Website</h1>\n" ++
  "              </div>\n              <div class=\"content\">\n" ++
  "                <p>Hello Romain,</p>\n" ++
  "                <p>You\x27ve received a new message from your website contact form.</p>\n" ++
  "                \n" ++
  "                <h2 style=\"color: #1f2937;\">Sender Details</h2>\n" ++
  "                <p><strong>Email:</strong> " ++ email.toTemplateString ++ "</p>\n" ++
  "                \n" ++
  "                <h2 style=\"color: #1f2937;\">Message</h2>\n" ++
  "                <p style=\"background: white; padding: 15px; border-radius: 4px; border: 1px solid #e5e7eb;\">\n" ++
  "                  " ++ messageHtml ++ "\n" ++
  "                </p>\n" ++
  "                \n" ++
  "                <p style=\"margin-top: 20px;\">\n" ++
  "                  To reply, you can either:\n" ++
  "                  <ul>\n" ++
  "                    <li>Use the reply-to address set in this email</li>\n" ++
  "                    <li>Click \"Reply\" in your email client</li>\n" ++
  "                  </ul>\n" ++
  "                </p>\n" ++
  "              </div>\n              <div class=\"footer\">\n" ++
  "                <p>This message was sent from the contact form on RomainBOBOE.com</p>\n" ++
  "                " ++
  (if IS_DEVELOPMENT env then
    "<p style=\"color: #92400e;\">Note: In development mode, emails are only sent to verified addresses.</p>"
   else "") ++
  "\n              </div>\n            </div>\n          </body>\n        </html>\n      "

/-- The `emailData` object literal `\x7b from, to, replyTo, subject, html \x7d`.
Evaluating it runs `message.replace(/\n/g, "<br>")`, which throws on a
non-string `message`; the throw propagates to the catch of the handler. -/
structure EmailData where
  «from» : String
  «to» : String
  replyTo : JSValue
  subject : String
  html : String

/-- Builds `emailData` from the environment, `recipientEmail`, and the
destructured `email` / `message` body fields. -/
def buildEmailData (env : Env) (recipientEmail : String) (email message : JSValue) :
    Except String EmailData :=
  match messageReplaceNewlines message with
  | .error e => .error e
  | .ok messageHtml =>
    .ok { «from» := if IS_DEVELOPMENT env
            then "Romain BOBOE <onboarding@resend.dev>"
            else "Contact Form <hi@romainboboe.com>"
          «to» := if IS_DEVELOPMENT env then "rboboe@gmail.com" else recipientEmail
          replyTo := email
          subject := (if IS_DEVELOPMENT env then "[TEST] " else "") ++
            "📨 New Message from RomainBOBOE.com"
          html := emailHtml env email messageHtml }

/-- The body of the `try` block of the handler, from
`const { email, message } = req.body` to the provider dispatch.
`.error m` models an exception with message `m` escaping to the outer catch. -/
def tryBody (env : Env) (provider : ProviderBehavior) (req : Request)
    (headers : List (String × String)) : Except String Response :=
  let email := req.body.email
  let message := req.body.message
  if ¬ email.truthy ∨ ¬ message.truthy then
    .ok ⟨400, headers, some fieldsRequiredBody⟩
  else if ¬ optStringTruthy env.CONTACT_FORM_EMAIL then
    .ok ⟨500, headers, some configErrorBody⟩
  else
    let recipientEmail := env.CONTACT_FORM_EMAIL.getD ""
    match buildEmailData env recipientEmail email message with
    | .error m => .error m
    | .ok _emailData =>
      match provider with
      | .throws m => .error m
      | .returns result =>
        match result.error with
        | some err => .ok ⟨500, headers, some (sendFailedBody err.message)⟩
        | none => .ok ⟨200, headers, some (sentBody result.data)⟩

/-- The POST path after method dispatch: the `resend` readiness check,
then the `try` block with the outer catch normalising any exception to
`500 \x7b success:false, message:"Failed to send email", error: <message> \x7d`. -/
def processPost (env : Env) (provider : ProviderBehavior) (req : Request)
    (headers : List (String × String)) : Response :=
  if ¬ resendInitialized env then
    ⟨500, headers, some notInitializedBody⟩
  else
    match tryBody env provider req headers with
    | .ok resp => resp
    | .error m => ⟨500, headers, some (sendFailedBody m)⟩

/-- The exported `handler`: CORS headers, then `OPTIONS` preflight
(200, empty body), then the 405 guard for non-POST methods, then the
POST processing. -/
def handler (env : Env) (provider : ProviderBehavior) (req : Request) : Response :=
  let origin := req.origin.getD ""
  let headers := corsHeaders env origin
  if req.method = "OPTIONS" then
    ⟨200, headers, none⟩
  else if req.method ≠ "POST" then
    ⟨405, headers, some notAllowedBody⟩
  else
    processPost env provider req headers

end SendEmail

namespace Contact

/-- The character class `\s` of a JavaScript regex (ECMAScript WhiteSpace
and LineTerminator characters). -/
def isJsWhitespace (c : Char) : Bool :=
  c = '\t' || c = '\n' || c = '\u000b' || c = '\u000c' || c = '\r' || c = ' ' ||
  c = '\u00a0' || c = '\u1680' || ('\u2000' ≤ c && c ≤ '\u200a') ||
  c = '\u2028' || c = '\u2029' || c = '\u202f' || c = '\u205f' ||
  c = '\u3000' || c = '\ufeff'

/-- Membership in the negated class `[^<>()[\]\\.,;:\s@"]` of the regex's
unquoted local part. -/
def isLocalAtomChar (c : Char) : Bool :=
  ¬ (c = '<' || c = '>' || c = '(' || c = ')' || c = '[' || c = ']' ||
     c = '\\' || c = '.' || c = ',' || c = ';' || c = ':' ||
     isJsWhitespace c || c = '@' || c = '"')

/-- A LineTerminator, which `.` (without the `s` flag) does not match. -/
def isLineTerminator (c : Char) : Bool :=
  c = '\n' || c = '\r' || c = '\u2028' || c = '\u2029'

/-- Splits a character list at every occurrence of the separator, the
single-character case of `String.splitOn` (e.g. `a.b` ↦ `[a, b]`,
`a..b` ↦ `[a, [], b]`, `a.` ↦ `[a, []]`). -/
def splitOnChar (sep : Char) : List Char → List (List Char)
  | [] => [[]]
  | c :: rest =>
    if c = sep then [] :: splitOnChar sep rest
    else
      match splitOnChar sep rest with
      | h :: t => (c :: h) :: t
      | [] => [[c]]

/-- The local-part alternative `[^...]+(\.[^...]+)*`: dot-separated
non-empty runs of atom characters (no leading, trailing, or doubled dot). -/
def unquotedLocalOK (l : List Char) : Bool :=
  (splitOnChar '.' l).all (fun p => ¬ p.isEmpty && p.all isLocalAtomChar)

/-- The local-part alternative `".+"`: a double quote, at least one
character none of which is a line terminator, a double quote. -/
def quotedLocalOK (l : List Char) : Bool :=
  decide (3 ≤ l.length) && l.head? = some '"' && l.getLast? = some '"' &&
  ((l.drop 1).dropLast.all (fun c => ¬ isLineTerminator c))

/-- One `[0-9]{1,3}` segment of the bracketed IP alternative. -/
def ipSegOK (p : List Char) : Bool :=
  decide (1 ≤ p.length) && decide (p.length ≤ 3) && p.all Char.isDigit

/-- The domain alternative `\[[0-9]{1,3}\.[0-9]{1,3}\.[0-9]{1,3}\.[0-9]{1,3}\]`. -/
def ipDomainOK (l : List Char) : Bool :=
  l.head? = some '[' && l.getLast? = some ']' &&
  (let parts := splitOnChar '.' ((l.drop 1).dropLast)
   parts.length = 4 && parts.all ipSegOK)

/-- A character of a domain label, class `[a-zA-Z\-0-9]`. -/
def isDomainLabelChar (c : Char) : Bool :=
  ('a' ≤ c && c ≤ 'z') || ('A' ≤ c && c ≤ 'Z') || c = '-' || ('0' ≤ c && c ≤ '9')

/-- A letter, class `[a-zA-Z]`. -/
def isAsciiLetter (c : Char) : Bool :=
  ('a' ≤ c && c ≤ 'z') || ('A' ≤ c && c ≤ 'Z')

/-- The domain alternative `([a-zA-Z\-0-9]+\.)+[a-zA-Z]{2,}`: at least one
label followed by a dot, then a top-level label of two or more letters. -/
def nameDomainOK (l : List Char) : Bool :=
  let parts := splitOnChar '.' l
  decide (2 ≤ parts.length) &&
  (parts.dropLast.all (fun p => ¬ p.isEmpty && p.all isDomainLabelChar)) &&
  (match parts.getLast? with
   | some tld => decide (2 ≤ tld.length) && tld.all isAsciiLetter
   | none => false)

/-- Splits a character list at its LAST `@`: since neither domain
alternative of the regex can contain `@`, the `@` separating local part
from domain in any anchored match must be the last one. -/
def splitAtLastAt : List Char → Option (List Char × List Char)
  | [] => none
  | c :: rest =>
    match splitAtLastAt rest with
    | some (l, d) => some (c :: l, d)
    | none => if c = '@' then some ([], rest) else none

/-- Whole-string match of the email regex of the widget
`/^(([^<>()[\]\\.,;:\s@"]+(\.[^<>()[\]\\.,;:\s@"]+)*)|(".+"))@((\[...\])|(([a-zA-Z\-0-9]+\.)+[a-zA-Z]{2,}))$/`
(anchored `^...$` without the `m` flag, so `.match(regex)` is truthy iff
the whole string matches). -/
def matchesEmailRegex (s : String) : Bool :=
  match splitAtLastAt s.toList with
  | none => false
  | some (localPart, domainPart) =>
    (unquotedLocalOK localPart || quotedLocalOK localPart) &&
    (ipDomainOK domainPart || nameDomainOK domainPart)

/-- The JavaScript `s.toLowerCase()`, computed over the character list
(kept structurally recursive so concrete instances evaluate). -/
def toLowerCase (s : String) : String :=
  String.mk (s.toList.map Char.toLower)

/-- One field of `formState`: `{ value, error }`; `none` models a null
error, `some ""` the empty-string error the state is initialised with. -/
structure FieldState where
  value : String
  error : Option String
deriving Repr, DecidableEq

/-- The `formState` record: the `email` and `message` fields. -/
structure FormState where
  email : FieldState
  message : FieldState
deriving Repr, DecidableEq

/-- The widget state `handleSubmit` reads and writes: the `success`,
`error` and `loading` hooks plus `formState` (the `open` visibility flag
is untouched by `handleSubmit` and not modelled). -/
structure WidgetState where
  success : Option String
  error : Option String
  loading : Bool
  formState : FormState
deriving Repr, DecidableEq

/-- The outcome of the `fetch` call: a response with its `ok` flag, or a
network failure rejecting the promise. (The parsed response bodies only
feed the message of the locally thrown `Error`, which the catch block
discards in favour of its fixed banner text, so they are not modelled.) -/
inductive FetchOutcome where
  | response : Bool → FetchOutcome
  | networkError : FetchOutcome
deriving Repr, DecidableEq

/-- The fixed empty-email error text. -/
def emailEmptyError : String := "Oops! Email cannot be empty."

/-- The fixed invalid-email error text. -/
def emailInvalidError : String := "Please enter a valid email address"

/-- The fixed empty-message error text. -/
def messageEmptyError : String := "Oops! Message cannot be empty."

/-- The fixed success banner text (its apostrophe written as an escape). -/
def successMessage : String := "Message sent successfully! I\x27ll get back to you soon. 🚀"

/-- The fixed generic failure banner text. -/
def failureMessage : String := "Failed to send message. Please try again later."

/-- The `handleSubmit` callback, as a function of the current widget state and the
fetch outcome; the second component records whether the HTTP request was
issued. Validation runs in source order — empty email, regex on the
lowercased email, empty message — and the first failing rule writes that
error of that field and returns. When all pass, the request is issued and the
`try`/`catch`/`finally` updates the banners, the form values (success
only) and the loading flag. -/
def handleSubmit (st : WidgetState) (fetch : FetchOutcome) : WidgetState × Bool :=
  let email := st.formState.email
  let message := st.formState.message
  if email.value = "" then
    ({ st with formState :=
        { st.formState with email := { email with error := some emailEmptyError } } },
     false)
  else if ¬ matchesEmailRegex (toLowerCase email.value) then
    ({ st with formState :=
        { st.formState with email := { email with error := some emailInvalidError } } },
     false)
  else if message.value = "" then
    ({ st with formState :=
        { st.formState with message := { message with error := some messageEmptyError } } },
     false)
  else
    match fetch with
    | .response true =>
      ({ st with
          loading := false
          error := none
          success := some successMessage
          formState := ⟨⟨"", some ""⟩, ⟨"", some ""⟩⟩ }, true)
    | .response false =>
      ({ st with loading := false, success := none, error := some failureMessage }, true)
    | .networkError =>
      ({ st with loading := false, success := none, error := some failureMessage }, true)

end Contact

namespace SendEmail

/-- Every branch of the `try` block that returns a response keeps the
headers that were set before dispatch. -/
theorem tryBody_ok_headers (env : Env) (provider : ProviderBehavior) (req : Request)
    (headers : List (String × String)) (r : Response)
    (h : tryBody env provider req headers = .ok r) : r.headers = headers := by
  simp only [tryBody] at h
  by_cases h1 : ¬ req.body.email.truthy = true ∨ ¬ req.body.message.truthy = true
  · rw [if_pos h1] at h
    injection h with h'
    subst h'
    rfl
  · rw [if_neg h1] at h
    by_cases h2 : ¬ optStringTruthy env.CONTACT_FORM_EMAIL = true
    · rw [if_pos h2] at h
      injection h with h'
      subst h'
      rfl
    · rw [if_neg h2] at h
      rcases hb : buildEmailData env (env.CONTACT_FORM_EMAIL.getD "")
          req.body.email req.body.message with m | ed
      · rw [hb] at h
        exact Except.noConfusion h
      · rw [hb] at h
        rcases provider with result | m
        · rcases result with ⟨rdata, rerror⟩
          rcases rerror with _ | err
          · injection h with h'
            subst h'
            rfl
          · injection h with h'
            subst h'
            rfl
        · exact Except.noConfusion h

/-- The response headers of the handler are exactly the CORS block
computed from the request origin, in every branch. -/
theorem handler_headers (env : Env) (provider : ProviderBehavior) (req : Request) :
    (handler env provider req).headers = corsHeaders env (req.origin.getD "") := by
  simp only [handler]
  by_cases h1 : req.method = "OPTIONS"
  · simp [h1]
  · rw [if_neg h1]
    by_cases h2 : req.method ≠ "POST"
    · rw [if_pos h2]
    · rw [if_neg h2]
      simp only [processPost]
      by_cases h3 : ¬ resendInitialized env = true
      · rw [if_pos h3]
      · rw [if_neg h3]
        rcases hb : tryBody env provider req (corsHeaders env (req.origin.getD "")) with m | r
        · rfl
        · exact tryBody_ok_headers env provider req _ r hb

/-- Dispatch helper: an OPTIONS request short-circuits to 200 / no body. -/
theorem handler_options_eq (env : Env) (provider : ProviderBehavior) (req : Request)
    (h : req.method = "OPTIONS") :
    handler env provider req = ⟨200, corsHeaders env (req.origin.getD ""), none⟩ := by
  simp only [handler]
  rw [if_pos h]

/-- Dispatch helper: any method other than OPTIONS and POST gets 405. -/
theorem handler_other_method_eq (env : Env) (provider : ProviderBehavior) (req : Request)
    (h1 : req.method ≠ "OPTIONS") (h2 : req.method ≠ "POST") :
    handler env provider req =
      ⟨405, corsHeaders env (req.origin.getD ""), some notAllowedBody⟩ := by
  simp only [handler]
  rw [if_neg h1, if_pos h2]

/-- Dispatch helper: a POST request runs the processing steps. -/
theorem handler_post_eq (env : Env) (provider : ProviderBehavior) (req : Request)
    (h : req.method = "POST") :
    handler env provider req =
      processPost env provider req (corsHeaders env (req.origin.getD "")) := by
  simp only [handler]
  rw [if_neg (h ▸ (by decide : ("POST" : String) ≠ "OPTIONS")),
      if_neg (by simp [h])]

/-- C5: method dispatch — an OPTIONS request returns 200 with an empty
body, a POST request proceeds to the processing steps, and a request with
any other method returns 405 with body `message: Method not allowed`. -/
theorem c5_method_dispatch (env : Env) (provider : ProviderBehavior) (req : Request) :
    (req.method = "OPTIONS" →
        handler env provider req = ⟨200, corsHeaders env (req.origin.getD ""), none⟩)
  ∧ (req.method ≠ "OPTIONS" → req.method ≠ "POST" →
        handler env provider req =
          ⟨405, corsHeaders env (req.origin.getD ""), some notAllowedBody⟩)
  ∧ (req.method = "POST" →
        handler env provider req =
          processPost env provider req (corsHeaders env (req.origin.getD ""))) :=
  ⟨handler_options_eq env provider req,
   handler_other_method_eq env provider req,
   handler_post_eq env provider req⟩

/-- C5 witness: a concrete GET request is answered 405. -/
theorem c5_method_dispatch_witness :
    handler ⟨some "re_key", some "dest@example.com", none, "production"⟩
        (.returns ⟨none, none⟩) ⟨"GET", none, ⟨.undefined, .undefined⟩⟩ =
      ⟨405, [], some notAllowedBody⟩ := by
  have h := (c5_method_dispatch ⟨some "re_key", some "dest@example.com", none, "production"⟩
      (.returns ⟨none, none⟩) ⟨"GET", none, ⟨.undefined, .undefined⟩⟩).2.1
      (by decide) (by decide)
  exact h.trans rfl

/-- C6: for every request, when the Origin header is in the allow-list
(the configured public site origin plus `http://localhost:3000`) or the
service runs in development mode, the response carries the three CORS
headers echoing that origin; otherwise none of them are set. -/
theorem c6_cors_headers (env : Env) (provider : ProviderBehavior) (req : Request) :
    ((IS_DEVELOPMENT env = true ∨ (allowedOrigins env).contains (req.origin.getD "") = true) →
        (handler env provider req).headers =
          [("Access-Control-Allow-Origin", req.origin.getD ""),
           ("Access-Control-Allow-Methods", "POST, OPTIONS"),
           ("Access-Control-Allow-Headers", "Content-Type")])
  ∧ (¬ (IS_DEVELOPMENT env = true ∨ (allowedOrigins env).contains (req.origin.getD "") = true) →
        (handler env provider req).headers = []) := by
  constructor
  · intro h
    rw [handler_headers]
    simp only [corsHeaders]
    rw [if_pos (by simpa using h)]
  · intro h
    rw [handler_headers]
    simp only [corsHeaders]
    rw [if_neg (by simpa using h)]

/-- C6 witness: an allowed localhost origin is echoed back; a foreign
origin in production gets no CORS headers. -/
theorem c6_cors_headers_witness :
    (handler ⟨some "re_key", some "dest@example.com", none, "production"⟩
        (.returns ⟨none, none⟩)
        ⟨"OPTIONS", some "http://localhost:3000", ⟨.undefined, .undefined⟩⟩).headers =
      [("Access-Control-Allow-Origin", "http://localhost:3000"),
       ("Access-Control-Allow-Methods", "POST, OPTIONS"),
       ("Access-Control-Allow-Headers", "Content-Type")] ∧
    (handler ⟨some "re_key", some "dest@example.com", none, "production"⟩
        (.returns ⟨none, none⟩)
        ⟨"OPTIONS", some "https://evil.example", ⟨.undefined, .undefined⟩⟩).headers = [] := by
  constructor
  · exact (c6_cors_headers ⟨some "re_key", some "dest@example.com", none, "production"⟩
      (.returns ⟨none, none⟩)
      ⟨"OPTIONS", some "http://localhost:3000", ⟨.undefined, .undefined⟩⟩).1 (by decide)
  · exact (c6_cors_headers ⟨some "re_key", some "dest@example.com", none, "production"⟩
      (.returns ⟨none, none⟩)
      ⟨"OPTIONS", some "https://evil.example", ⟨.undefined, .undefined⟩⟩).2 (by decide)

/-- C2 counterexample: with a malformed API key (client not initialised),
a GET request is answered 405 Method not allowed, not the claimed 500
not-initialized response — the method dispatch runs before the readiness
check. -/
theorem c2_counterexample :
    handler ⟨some "bad-key", some "dest@example.com", none, "production"⟩
        (.returns ⟨none, none⟩) ⟨"GET", none, ⟨.undefined, .undefined⟩⟩ =
      ⟨405, [], some notAllowedBody⟩ ∧
    handler ⟨some "bad-key", some "dest@example.com", none, "production"⟩
        (.returns ⟨none, none⟩) ⟨"GET", none, ⟨.undefined, .undefined⟩⟩ ≠
      ⟨500, [], some notInitializedBody⟩ := by
  exact ⟨rfl, by decide⟩

/-- C2 (amended): when the provider client failed to initialise, every
POST request — for every body and origin — returns 500 with the fixed
not-initialized body, independent of the request body. -/
theorem c2_uninitialized (env : Env) (provider : ProviderBehavior) (req : Request)
    (hm : req.method = "POST") (hinit : resendInitialized env = false) :
    handler env provider req =
      ⟨500, corsHeaders env (req.origin.getD ""), some notInitializedBody⟩ := by
  rw [handler_post_eq env provider req hm]
  simp only [processPost]
  rw [if_pos (by simp [hinit])]

/-- C2 witness: a concrete POST with a well-formed body against an
environment with no API key. -/
theorem c2_uninitialized_witness :
    handler ⟨none, some "dest@example.com", none, "production"⟩ (.returns ⟨none, none⟩)
        ⟨"POST", none, ⟨.str "a@b.com", .str "hi"⟩⟩ =
      ⟨500, [], some notInitializedBody⟩ := by
  have h := c2_uninitialized ⟨none, some "dest@example.com", none, "production"⟩
      (.returns ⟨none, none⟩) ⟨"POST", none, ⟨.str "a@b.com", .str "hi"⟩⟩ rfl rfl
  exact h.trans rfl

/-- C3 counterexample: when the provider client is not initialised, a
POST request missing `message` is answered with the 500 not-initialized
response, not the claimed 400 — so the 400 does NOT hold regardless of
the initialisation state. -/
theorem c3_counterexample :
    handler ⟨none, some "dest@example.com", none, "production"⟩ (.returns ⟨none, none⟩)
        ⟨"POST", none, ⟨.str "a@b.com", .undefined⟩⟩ =
      ⟨500, [], some notInitializedBody⟩ ∧
    handler ⟨none, some "dest@example.com", none, "production"⟩ (.returns ⟨none, none⟩)
        ⟨"POST", none, ⟨.str "a@b.com", .undefined⟩⟩ ≠
      ⟨400, [], some fieldsRequiredBody⟩ := by
  exact ⟨rfl, by decide⟩

/-- C3 (amended): provided the provider client is initialised, every POST
request whose parsed body lacks a truthy `email` or a truthy `message`
returns 400 with body `message: Email and message are required`. -/
theorem c3_missing_fields (env : Env) (provider : ProviderBehavior) (req : Request)
    (hm : req.method = "POST") (hinit : resendInitialized env = true)
    (hmiss : req.body.email.truthy = false ∨ req.body.message.truthy = false) :
    handler env provider req =
      ⟨400, corsHeaders env (req.origin.getD ""), some fieldsRequiredBody⟩ := by
  rw [handler_post_eq env provider req hm]
  simp only [processPost]
  rw [if_neg (by simp [hinit])]
  have hcond : ¬ req.body.email.truthy = true ∨ ¬ req.body.message.truthy = true := by
    rcases hmiss with h | h
    · exact Or.inl (by simp [h])
    · exact Or.inr (by simp [h])
  simp only [tryBody]
  rw [if_pos hcond]

/-- When both body fields and the recipient are truthy, the `try` block
reduces to composing the email and dispatching to the provider. -/
theorem tryBody_validated (env : Env) (provider : ProviderBehavior) (req : Request)
    (headers : List (String × String))
    (hemail : req.body.email.truthy = true) (hmsg : req.body.message.truthy = true)
    (hrcpt : optStringTruthy env.CONTACT_FORM_EMAIL = true) :
    tryBody env provider req headers =
      match buildEmailData env (env.CONTACT_FORM_EMAIL.getD "")
          req.body.email req.body.message with
      | .error m => .error m
      | .ok _ =>
        match provider with
        | .throws m => .error m
        | .returns result =>
          match result.error with
          | some err => .ok ⟨500, headers, some (sendFailedBody err.message)⟩
          | none => .ok ⟨200, headers, some (sentBody result.data)⟩ := by
  simp only [tryBody]
  rw [if_neg (by simp [hemail, hmsg]), if_neg (by simp [hrcpt])]

/-- C1: for every POST request that passes field and recipient validation
(and whose `message` is an actual string, so that composing the HTML does
not itself throw), the response is determined by the provider result:
provider error ↦ 500 `Failed to send email` with the provider message,
provider success ↦ 200 `Email sent successfully` with the provider id,
provider throw ↦ the outer-catch 500 with the exception message; and in
general any exception escaping the try block is normalised by the outer
catch to the same 500 shape. -/
theorem c1_provider_determines_response (env : Env) (provider : ProviderBehavior)
    (req : Request) (hm : req.method = "POST") (hinit : resendInitialized env = true)
    (hemail : req.body.email.truthy = true) (hmsg : req.body.message.truthy = true)
    (hrcpt : optStringTruthy env.CONTACT_FORM_EMAIL = true) :
    (∀ s result err, req.body.message = .str s → provider = .returns result →
        result.error = some err →
        handler env provider req =
          ⟨500, corsHeaders env (req.origin.getD ""), some (sendFailedBody err.message)⟩)
  ∧ (∀ s result, req.body.message = .str s → provider = .returns result →
        result.error = none →
        handler env provider req =
          ⟨200, corsHeaders env (req.origin.getD ""), some (sentBody result.data)⟩)
  ∧ (∀ s m, req.body.message = .str s → provider = .throws m →
        handler env provider req =
          ⟨500, corsHeaders env (req.origin.getD ""), some (sendFailedBody m)⟩)
  ∧ (∀ m, tryBody env provider req (corsHeaders env (req.origin.getD "")) = .error m →
        handler env provider req =
          ⟨500, corsHeaders env (req.origin.getD ""), some (sendFailedBody m)⟩) := by
  refine ⟨?_, ?_, ?_, ?_⟩
  · intro s result err hs hp he
    subst hp
    rw [handler_post_eq env _ req hm]
    simp only [processPost]
    rw [if_neg (by simp [hinit])]
    rw [tryBody_validated env _ req _ hemail hmsg hrcpt]
    rw [hs]
    simp only [buildEmailData, messageReplaceNewlines]
    rw [he]
  · intro s result hs hp he
    subst hp
    rw [handler_post_eq env _ req hm]
    simp only [processPost]
    rw [if_neg (by simp [hinit])]
    rw [tryBody_validated env _ req _ hemail hmsg hrcpt]
    rw [hs]
    simp only [buildEmailData, messageReplaceNewlines]
    rw [he]
  · intro s m hs hp
    subst hp
    rw [handler_post_eq env _ req hm]
    simp only [processPost]
    rw [if_neg (by simp [hinit])]
    rw [tryBody_validated env _ req _ hemail hmsg hrcpt]
    rw [hs]
    simp only [buildEmailData, messageReplaceNewlines]
  · intro m hEm
    rw [handler_post_eq env provider req hm]
    simp only [processPost]
    rw [if_neg (by simp [hinit])]
    rw [hEm]

/-- C1 witness: a provider success with id `abc123` yields the 200 body. -/
theorem c1_provider_determines_response_witness :
    handler ⟨some "re_key", some "dest@example.com", none, "production"⟩
        (.returns ⟨some "abc123", none⟩)
        ⟨"POST", some "http://localhost:3000", ⟨.str "a@b.com", .str "hi"⟩⟩ =
      ⟨200,
       [("Access-Control-Allow-Origin", "http://localhost:3000"),
        ("Access-Control-Allow-Methods", "POST, OPTIONS"),
        ("Access-Control-Allow-Headers", "Content-Type")],
       some [("success", .b true), ("message", .s "Email sent successfully"),
             ("id", .s "abc123")]⟩ := by
  have h := (c1_provider_determines_response
      ⟨some "re_key", some "dest@example.com", none, "production"⟩
      (.returns ⟨some "abc123", none⟩)
      ⟨"POST", some "http://localhost:3000", ⟨.str "a@b.com", .str "hi"⟩⟩
      rfl (by decide) (by decide) (by decide) (by decide)).2.1
      "hi" ⟨some "abc123", none⟩ rfl rfl rfl
  exact h.trans rfl

/-- C10 counterexample: a POST whose body has a truthy non-string
`message` but a falsy `email` IS answered 400 — the field check fires on
the missing email before the HTML body is ever built. -/
theorem c10_counterexample :
    handler ⟨some "re_key", some "dest@example.com", none, "production"⟩
        (.returns ⟨none, none⟩) ⟨"POST", none, ⟨.undefined, .num 5⟩⟩ =
      ⟨400, [], some fieldsRequiredBody⟩ := rfl

/-- C10 (amended): for every POST whose body has a truthy `email` and a
truthy non-string `message`, the endpoint never returns 400 (the status
is 500 whatever the configuration); and when the provider client is
initialised and a recipient is configured, building the HTML body throws
(`.replace` is not a function on a non-string), the exception is caught
at the outer boundary, and the response is the outer-catch 500
`Failed to send email`. -/
theorem c10_nonstring_message (env : Env) (provider : ProviderBehavior) (req : Request)
    (hm : req.method = "POST")
    (hemail : req.body.email.truthy = true)
    (hmsgT : req.body.message.truthy = true)
    (hmsgNS : ∀ s, req.body.message ≠ JSValue.str s) :
    (handler env provider req).status = 500
  ∧ (resendInitialized env = true → optStringTruthy env.CONTACT_FORM_EMAIL = true →
      handler env provider req =
        ⟨500, corsHeaders env (req.origin.getD ""),
         some (sendFailedBody "message.replace is not a function")⟩) := by
  have hrep : messageReplaceNewlines req.body.message =
      .error "message.replace is not a function" := by
    cases hv : req.body.message with
    | str s => exact absurd hv (hmsgNS s)
    | num n => rfl
    | boolean b => rfl
    | null => rfl
    | undefined => rfl
  have key : resendInitialized env = true → optStringTruthy env.CONTACT_FORM_EMAIL = true →
      handler env provider req =
        ⟨500, corsHeaders env (req.origin.getD ""),
         some (sendFailedBody "message.replace is not a function")⟩ := by
    intro hinit hrcpt
    rw [handler_post_eq env provider req hm]
    simp only [processPost]
    rw [if_neg (by simp [hinit])]
    rw [tryBody_validated env provider req _ hemail hmsgT hrcpt]
    simp only [buildEmailData]
    rw [hrep]
  refine ⟨?_, key⟩
  by_cases hinit : resendInitialized env = true
  · by_cases hrcpt : optStringTruthy env.CONTACT_FORM_EMAIL = true
    · rw [key hinit hrcpt]
    · rw [handler_post_eq env provider req hm]
      simp only [processPost]
      rw [if_neg (by simp [hinit])]
      simp only [tryBody]
      rw [if_neg (by simp [hemail, hmsgT]), if_pos hrcpt]
  · rw [handler_post_eq env provider req hm]
    simp only [processPost]
    rw [if_pos hinit]

/-- C10 witness: a numeric `message` with a present email and a fully
configured environment yields the catch-all 500. -/
theorem c10_nonstring_message_witness :
    handler ⟨some "re_key", some "dest@example.com", none, "production"⟩
        (.returns ⟨none, none⟩) ⟨"POST", none, ⟨.str "a@b.com", .num 5⟩⟩ =
      ⟨500, [], some (sendFailedBody "message.replace is not a function")⟩ := by
  have h := (c10_nonstring_message
      ⟨some "re_key", some "dest@example.com", none, "production"⟩
      (.returns ⟨none, none⟩) ⟨"POST", none, ⟨.str "a@b.com", .num 5⟩⟩
      rfl (by decide) (by decide) (fun s h => nomatch h)).2 (by decide) (by decide)
  exact h.trans rfl

/-- C7: whenever the compose step succeeds, in development mode the
sender and recipient are the fixed verified test identities regardless of
the configured recipient and the subject carries the `[TEST] ` prefix; in
production mode the sender is the fixed public identity and the recipient
is the configured destination; in both modes `replyTo` is the submitter
email from the request body. (`tryBody` instantiates `recipientEmail`
with the configured `CONTACT_FORM_EMAIL`.) -/
theorem c7_email_composition (env : Env) (recipientEmail : String)
    (email message : JSValue) (d : EmailData)
    (h : buildEmailData env recipientEmail email message = .ok d) :
    (IS_DEVELOPMENT env = true →
        d.«from» = "Romain BOBOE <onboarding@resend.dev>" ∧
        d.«to» = "rboboe@gmail.com" ∧
        strStartsWith d.subject "[TEST] " = true)
  ∧ (IS_DEVELOPMENT env = false →
        d.«from» = "Contact Form <hi@romainboboe.com>" ∧ d.«to» = recipientEmail)
  ∧ d.replyTo = email := by
  simp only [buildEmailData] at h
  rcases hr : messageReplaceNewlines message with e | mh
  · rw [hr] at h
    exact Except.noConfusion h
  · rw [hr] at h
    injection h with h'
    subst h'
    refine ⟨fun hd => ⟨?_, ?_, ?_⟩, fun hd => ⟨?_, ?_⟩, rfl⟩
    · simp [hd]
    · simp [hd]
    · show strStartsWith ((if IS_DEVELOPMENT env then "[TEST] " else "") ++
        "📨 New Message from RomainBOBOE.com") "[TEST] " = true
      rw [if_pos hd]
      decide
    · simp [hd]
    · simp [hd]

/-- C7 witness: development environment, arbitrary configured recipient. -/
theorem c7_email_composition_witness :
    (buildEmailData ⟨some "re_key", some "cfg@example.com", none, "development"⟩
        "cfg@example.com" (.str "visitor@example.com") (.str "hi")).map
      (fun d => (d.«from», d.«to», d.replyTo, strStartsWith d.subject "[TEST] ")) =
    .ok ("Romain BOBOE <onboarding@resend.dev>", "rboboe@gmail.com",
         JSValue.str "visitor@example.com", true) := by
  rcases hd : buildEmailData ⟨some "re_key", some "cfg@example.com", none, "development"⟩
      "cfg@example.com" (.str "visitor@example.com") (.str "hi") with e | d
  · simp [buildEmailData, messageReplaceNewlines] at hd
  · have h := c7_email_composition _ _ _ _ d hd
    have h1 := h.1 (by decide)
    simp only [Except.map]
    rw [h1.1, h1.2.1, h1.2.2, h.2.2]

/-- C3 witness: a concrete POST missing `message` against an initialised
client. -/
theorem c3_missing_fields_witness :
    handler ⟨some "re_key", some "dest@example.com", none, "production"⟩
        (.returns ⟨none, none⟩) ⟨"POST", none, ⟨.str "a@b.com", .undefined⟩⟩ =
      ⟨400, [], some fieldsRequiredBody⟩ := by
  have h := c3_missing_fields ⟨some "re_key", some "dest@example.com", none, "production"⟩
      (.returns ⟨none, none⟩) ⟨"POST", none, ⟨.str "a@b.com", .undefined⟩⟩
      rfl (by decide) (Or.inr rfl)
  exact h.trans rfl

end SendEmail

namespace Contact

/-- C4: `handleSubmit` validates in the fixed source order — (1) email
non-empty, (2) email matches the address regex on the lowercased value,
(3) message non-empty. The first failing rule writes exactly the
fixed error message, leaves everything else in the state unchanged, and
aborts so that no HTTP request is issued; when all three rules pass, the
HTTP request is issued. -/
theorem c4_validation_order (st : WidgetState) (fetch : FetchOutcome) :
    (st.formState.email.value = "" →
        handleSubmit st fetch =
          ({ st with formState :=
              { st.formState with email :=
                { st.formState.email with error := some emailEmptyError } } }, false))
  ∧ (st.formState.email.value ≠ "" →
     matchesEmailRegex (toLowerCase st.formState.email.value) = false →
        handleSubmit st fetch =
          ({ st with formState :=
              { st.formState with email :=
                { st.formState.email with error := some emailInvalidError } } }, false))
  ∧ (st.formState.email.value ≠ "" →
     matchesEmailRegex (toLowerCase st.formState.email.value) = true →
     st.formState.message.value = "" →
        handleSubmit st fetch =
          ({ st with formState :=
              { st.formState with message :=
                { st.formState.message with error := some messageEmptyError } } }, false))
  ∧ (st.formState.email.value ≠ "" →
     matchesEmailRegex (toLowerCase st.formState.email.value) = true →
     st.formState.message.value ≠ "" →
        (handleSubmit st fetch).2 = true) := by
  refine ⟨?_, ?_, ?_, ?_⟩
  · intro h1
    simp only [handleSubmit]
    rw [if_pos h1]
  · intro h1 h2
    simp only [handleSubmit]
    rw [if_neg h1, if_pos (by simp [h2])]
  · intro h1 h2 h3
    simp only [handleSubmit]
    rw [if_neg h1, if_neg (by simp [h2]), if_pos h3]
  · intro h1 h2 h3
    simp only [handleSubmit]
    rw [if_neg h1, if_neg (by simp [h2]), if_neg h3]
    rcases fetch with ok | _
    · rcases ok with _ | _ <;> rfl
    · rfl

/-- C4 witness: an empty email aborts with the fixed message and no
request; the message field is untouched. -/
theorem c4_validation_order_witness :
    handleSubmit ⟨none, none, false, ⟨⟨"", none⟩, ⟨"hello", none⟩⟩⟩ .networkError =
      (⟨none, none, false, ⟨⟨"", some emailEmptyError⟩, ⟨"hello", none⟩⟩⟩, false) := by
  have h := (c4_validation_order ⟨none, none, false, ⟨⟨"", none⟩, ⟨"hello", none⟩⟩⟩
      .networkError).1 rfl
  exact h.trans rfl

/-- C8: once validation passes, a successful response sets the fixed
success banner, clears both field values and ends with `loading = false`;
a non-2xx response or a network failure sets the generic failure banner
and ends with `loading = false`. -/
theorem c8_submission_outcome (st : WidgetState) (fetch : FetchOutcome)
    (h1 : st.formState.email.value ≠ "")
    (h2 : matchesEmailRegex (toLowerCase st.formState.email.value) = true)
    (h3 : st.formState.message.value ≠ "") :
    (fetch = .response true →
        handleSubmit st fetch =
          ({ st with
              loading := false
              error := none
              success := some successMessage
              formState := ⟨⟨"", some ""⟩, ⟨"", some ""⟩⟩ }, true))
  ∧ (fetch = .response false →
        handleSubmit st fetch =
          ({ st with
              loading := false
              success := none
              error := some failureMessage }, true))
  ∧ (fetch = .networkError →
        handleSubmit st fetch =
          ({ st with
              loading := false
              success := none
              error := some failureMessage }, true)) := by
  refine ⟨?_, ?_, ?_⟩ <;> intro hf <;> subst hf <;>
    simp only [handleSubmit] <;>
    rw [if_neg h1, if_neg (by simp [h2]), if_neg h3]

/-- C8 witness: a valid form and a 2xx response produce the success state
with cleared fields. -/
theorem c8_submission_outcome_witness :
    handleSubmit ⟨none, none, true, ⟨⟨"a@b.com", none⟩, ⟨"hi", none⟩⟩⟩ (.response true) =
      (⟨some successMessage, none, false, ⟨⟨"", some ""⟩, ⟨"", some ""⟩⟩⟩, true) := by
  have h := (c8_submission_outcome ⟨none, none, true, ⟨⟨"a@b.com", none⟩, ⟨"hi", none⟩⟩⟩
      (.response true) (by decide) (by decide) (by decide)).1 rfl
  exact h.trans rfl

/-- The client-side validation predicate of `handleSubmit`: email
non-empty, regex match on the lowercased email, message non-empty. -/
def passesValidation (st : WidgetState) : Bool :=
  st.formState.email.value ≠ "" &&
  matchesEmailRegex (toLowerCase st.formState.email.value) &&
  st.formState.message.value ≠ ""

/-- C9: a submission that does not succeed — a validation failure, a
non-2xx response, or a network error — leaves both field values
unchanged; only a successful submission clears them. -/
theorem c9_field_values_frame (st : WidgetState) (fetch : FetchOutcome) :
    (¬ (passesValidation st = true ∧ fetch = .response true) →
        (handleSubmit st fetch).1.formState.email.value = st.formState.email.value ∧
        (handleSubmit st fetch).1.formState.message.value = st.formState.message.value)
  ∧ (passesValidation st = true → fetch = .response true →
        (handleSubmit st fetch).1.formState.email.value = "" ∧
        (handleSubmit st fetch).1.formState.message.value = "") := by
  constructor
  · intro hno
    simp only [handleSubmit]
    by_cases h1 : st.formState.email.value = ""
    · rw [if_pos h1]
      exact ⟨rfl, rfl⟩
    · rw [if_neg h1]
      by_cases h2 : matchesEmailRegex (toLowerCase st.formState.email.value) = true
      · rw [if_neg (by simp [h2])]
        by_cases h3 : st.formState.message.value = ""
        · rw [if_pos h3]
          exact ⟨rfl, rfl⟩
        · rw [if_neg h3]
          have hfetch : fetch ≠ .response true := by
            intro hf
            exact hno ⟨by simp [passesValidation, h1, h2, h3], hf⟩
          rcases fetch with ok | _
          · rcases ok with _ | _
            · exact ⟨rfl, rfl⟩
            · exact absurd rfl hfetch
          · exact ⟨rfl, rfl⟩
      · rw [if_pos (by simpa using h2)]
        exact ⟨rfl, rfl⟩
  · intro hv hf
    subst hf
    have hparts : (st.formState.email.value ≠ "" ∧
        matchesEmailRegex (toLowerCase st.formState.email.value) = true) ∧
        st.formState.message.value ≠ "" := by
      simpa [passesValidation] using hv
    simp only [handleSubmit]
    rw [if_neg hparts.1.1, if_neg (by simp [hparts.1.2]), if_neg hparts.2]
    exact ⟨rfl, rfl⟩

/-- C9 witness: an invalid email leaves both typed values in place. -/
theorem c9_field_values_frame_witness :
    (handleSubmit ⟨none, none, false, ⟨⟨"not-an-email", none⟩, ⟨"msg", none⟩⟩⟩
        .networkError).1.formState.email.value = "not-an-email" ∧
    (handleSubmit ⟨none, none, false, ⟨⟨"not-an-email", none⟩, ⟨"msg", none⟩⟩⟩
        .networkError).1.formState.message.value = "msg" := by
  exact (c9_field_values_frame ⟨none, none, false, ⟨⟨"not-an-email", none⟩, ⟨"msg", none⟩⟩⟩
      .networkError).1 (by decide)

end Contact
